import Mathlib

/-!
Verification of the argo-events action-dispatch core (GCP cloud-function
trigger and controller configuration lookup), shallowly embedded from the
Go source.

Source files embedded:
- sensors/triggers/gcp-cloud-function/gcp-cloud-function.go
- controllers/config.go

Helpers living elsewhere in the repository (`triggers.ApplyParams`,
`triggers.ConstructPayload`, `common.GetSecretFromVolume`) are modelled
from the specification, as marked on each definition. External I/O
(filesystem, network) is modelled by an explicit oracle record so that the
data flow of the Go functions is preserved exactly.
-/

set_option maxRecDepth 2000

/-! ## Generic JSON documents

Resource templates and payloads cross the serialization boundary as JSON.
We model the parsed document; numbers are integers (no claim depends on
floating-point behaviour). -/

inductive Json where
  | null : Json
  | bool (b : Bool) : Json
  | num (n : Int) : Json
  | str (s : String) : Json
  | arr (elems : List Json) : Json
  | obj (fields : List (String × Json)) : Json

/-- First binding of a key in a JSON object's field list. -/
def lookupField : List (String × Json) → String → Option Json
  | [], _ => none
  | (k, v) :: rest, key => if k = key then some v else lookupField rest key

/-- Replace the first binding of `key`, or append a new binding. -/
def setField : List (String × Json) → String → Json → List (String × Json)
  | [], key, v => [(key, v)]
  | (k, w) :: rest, key, v =>
      if k = key then (k, v) :: rest else (k, w) :: setField rest key v

/-- Evaluate a path expression (a key sequence) against a document. -/
def lookupPath : Json → List String → Option Json
  | j, [] => some j
  | Json.obj fields, key :: rest =>
      match lookupField fields key with
      | some v => lookupPath v rest
      | none => none
  | _, _ :: _ => none

/-- Overwrite the value at a destination path, creating intermediate
objects as needed. -/
def setPath : Json → List String → Json → Json
  | _, [], v => v
  | Json.obj fields, key :: rest, v =>
      let child := match lookupField fields key with
        | some c => c
        | none => Json.obj []
      Json.obj (setField fields key (setPath child rest v))
  | _, key :: rest, v => Json.obj [(key, setPath (Json.obj []) rest v)]

mutual
/-- Deterministic serialization of a document to bytes (modelled as a
string; escaping is restricted to quotes and backslashes). -/
def serializeJson : Json → String
  | Json.null => "null"
  | Json.bool true => "true"
  | Json.bool false => "false"
  | Json.num n => toString n
  | Json.str s => "\"" ++ escapeJson s.data ++ "\""
  | Json.arr elems => "[" ++ serializeArr elems ++ "]"
  | Json.obj fields => "\x7b" ++ serializeObj fields ++ "\x7d"

def escapeJson : List Char → String
  | [] => ""
  | c :: cs =>
      (if c = '"' ∨ c = '\\' then String.mk ['\\', c] else String.mk [c])
        ++ escapeJson cs

def serializeArr : List Json → String
  | [] => ""
  | [j] => serializeJson j
  | j :: rest => serializeJson j ++ "," ++ serializeArr rest

def serializeObj : List (String × Json) → String
  | [] => ""
  | [(k, v)] => "\"" ++ escapeJson k.data ++ "\":" ++ serializeJson v
  | (k, v) :: rest =>
      "\"" ++ escapeJson k.data ++ "\":" ++ serializeJson v ++ "," ++ serializeObj rest
end

/-! ## Sensor API types (pkg/apis/sensor/v1alpha1)

Only the fields the embedded functions read are modelled. -/

namespace v1alpha1

/-- corev1.SecretKeySelector: identifies the secret and key holding the
credential file. -/
structure SecretKeySelector where
  Name : String
  Key : String
deriving DecidableEq, Repr

/-- Merge operation of a trigger parameter (data model §3: one of
overwrite, prepend, append). -/
inductive TriggerOperation where
  | overwrite : TriggerOperation
  | prepend : TriggerOperation
  | append : TriggerOperation
deriving DecidableEq, Repr

/-- Source half of a parameter binding: event name, path expression into
the event payload, optional default used when resolution fails. -/
structure TriggerParameterSource where
  DependencyName : String
  DataKey : List String
  Value : Option Json

/-- A parameter binding: source, destination path, merge operation. -/
structure TriggerParameter where
  Src : TriggerParameterSource
  Dest : List String
  Operation : TriggerOperation

/-- v1alpha1.GCPCloudFunctionTrigger: the action-specific static template.
`Parameters`/`Payload` distinguish a nil Go slice (`none`) from an empty
one (`some []`), since the source tests `parameters != nil`. -/
structure GCPCloudFunctionTrigger where
  FunctionName : String
  CredentialsPath : SecretKeySelector
  Parameters : Option (List TriggerParameter)
  Payload : Option (List TriggerParameter)

/-- Trigger template: name plus the GCP cloud-function section (the
constructor is only reached for triggers of this action kind, so the
section is present). -/
structure TriggerTemplate where
  Name : String
  GCPCloudFunction : GCPCloudFunctionTrigger

structure Trigger where
  Template : TriggerTemplate

structure Sensor where
  Name : String
deriving DecidableEq, Repr

/-- An event's payload, as the structured document the parameter resolver
addresses into. -/
def Event := Json

end v1alpha1

/-- The Event Set: mapping from source name to the event payload. -/
def EventMap := List (String × v1alpha1.Event)

def lookupEvent : EventMap → String → Option v1alpha1.Event
  | [], _ => none
  | (k, v) :: rest, key => if k = key then some v else lookupEvent rest key

/-! ## Parameter resolver and payload constructor (sensors/triggers)

These live outside the embedded source files; they are modelled from the
specification (§4.1, §4.2). -/

namespace triggers

/-- Modelled from the spec: resolve one binding's source against the Event
Set (§4.1) — locate the event by name, evaluate the path expression, fall
back to the default when either step fails and a default exists. -/
def resolveSource (events : EventMap) (src : v1alpha1.TriggerParameterSource) :
    Except String Json :=
  match lookupEvent events src.DependencyName with
  | none =>
      match src.Value with
      | some d => Except.ok d
      | none => Except.error ("missing event: " ++ src.DependencyName)
  | some payload =>
      match lookupPath payload src.DataKey with
      | some v => Except.ok v
      | none =>
          match src.Value with
          | some d => Except.ok d
          | none => Except.error ("path does not resolve for event: " ++ src.DependencyName)

/-- Modelled from the spec: apply one resolved value at the destination
according to the merge operation (§4.1) — overwrite replaces (creating
intermediate structure), prepend/append require the destination to hold a
sequence or string. -/
def applyOperation (doc : Json) (dest : List String)
    (op : v1alpha1.TriggerOperation) (v : Json) : Except String Json :=
  match op with
  | v1alpha1.TriggerOperation.overwrite => Except.ok (setPath doc dest v)
  | v1alpha1.TriggerOperation.prepend =>
      match lookupPath doc dest with
      | some (Json.arr elems) => Except.ok (setPath doc dest (Json.arr (v :: elems)))
      | some (Json.str s) =>
          match v with
          | Json.str vs => Except.ok (setPath doc dest (Json.str (vs ++ s)))
          | _ => Except.error "prepend value is not a string"
      | _ => Except.error "prepend destination does not hold a sequence or string"
  | v1alpha1.TriggerOperation.append =>
      match lookupPath doc dest with
      | some (Json.arr elems) => Except.ok (setPath doc dest (Json.arr (elems ++ [v])))
      | some (Json.str s) =>
          match v with
          | Json.str vs => Except.ok (setPath doc dest (Json.str (s ++ vs)))
          | _ => Except.error "append value is not a string"
      | _ => Except.error "append destination does not hold a sequence or string"

/-- Modelled from the spec: `triggers.ApplyParams` (§4.1) — bindings are
applied to the serialized template in declared order; any resolution or
merge failure is fatal. -/
def ApplyParams (resourceBytes : Json) (params : List v1alpha1.TriggerParameter)
    (events : EventMap) : Except String Json :=
  match params with
  | [] => Except.ok resourceBytes
  | p :: rest =>
      match resolveSource events p.Src with
      | Except.error e => Except.error e
      | Except.ok v =>
          match applyOperation resourceBytes p.Dest p.Operation v with
          | Except.error e => Except.error e
          | Except.ok doc => ApplyParams doc rest events

/-- Modelled from the spec: `triggers.ConstructPayload` (§4.2) — builds a
fresh document from nothing by applying the payload bindings to an empty
mapping, then serializes it to bytes. -/
def ConstructPayload (events : EventMap) (payload : List v1alpha1.TriggerParameter) :
    Except String String :=
  match ApplyParams (Json.obj []) payload events with
  | Except.error e => Except.error e
  | Except.ok doc => Except.ok (serializeJson doc)

end triggers

/-! ## JSON codec for the GCP trigger template

`ApplyResourceParameters` marshals the typed resource to bytes, applies
the bindings, and unmarshals the result back into the typed struct. The
codec below mirrors Go's encoding/json on the modelled fields; on the
values that occur here `json.Marshal` cannot fail, so marshalling is
total. A nil `CredentialsPath` pointer is flattened to the zero-valued
selector (no embedded function distinguishes the two). -/

def encodeSecretKeySelector (s : v1alpha1.SecretKeySelector) : Json :=
  Json.obj [("name", Json.str s.Name), ("key", Json.str s.Key)]

def encodeOperation : v1alpha1.TriggerOperation → Json
  | v1alpha1.TriggerOperation.overwrite => Json.str "overwrite"
  | v1alpha1.TriggerOperation.prepend => Json.str "prepend"
  | v1alpha1.TriggerOperation.append => Json.str "append"

def encodeParameterSource (s : v1alpha1.TriggerParameterSource) : Json :=
  Json.obj [("dependencyName", Json.str s.DependencyName),
            ("dataKey", Json.arr (s.DataKey.map Json.str)),
            ("value", match s.Value with
                      | some v => v
                      | none => Json.null)]

def encodeParameter (p : v1alpha1.TriggerParameter) : Json :=
  Json.obj [("src", encodeParameterSource p.Src),
            ("dest", Json.arr (p.Dest.map Json.str)),
            ("operation", encodeOperation p.Operation)]

def encodeOptParameters : Option (List v1alpha1.TriggerParameter) → Json
  | none => Json.null
  | some ps => Json.arr (ps.map encodeParameter)

def encodeGCPCloudFunctionTrigger (t : v1alpha1.GCPCloudFunctionTrigger) : Json :=
  Json.obj [("functionName", Json.str t.FunctionName),
            ("credentialsPath", encodeSecretKeySelector t.CredentialsPath),
            ("parameters", encodeOptParameters t.Parameters),
            ("payload", encodeOptParameters t.Payload)]

def decodeString : Json → Except String String
  | Json.str s => Except.ok s
  | _ => Except.error "cannot unmarshal into a string field"

def decodeStringList : Json → Except String (List String)
  | Json.arr elems =>
      elems.foldr
        (fun j acc =>
          match decodeString j, acc with
          | Except.ok s, Except.ok rest => Except.ok (s :: rest)
          | Except.error e, _ => Except.error e
          | _, Except.error e => Except.error e)
        (Except.ok [])
  | _ => Except.error "cannot unmarshal into a string list field"

/-- A missing object field unmarshals to the Go zero value. -/
def fieldOr (fields : List (String × Json)) (key : String) (dflt : Json) : Json :=
  match lookupField fields key with
  | some v => v
  | none => dflt

def decodeSecretKeySelector : Json → Except String v1alpha1.SecretKeySelector
  | Json.obj fields =>
      match decodeString (fieldOr fields "name" (Json.str "")),
            decodeString (fieldOr fields "key" (Json.str "")) with
      | Except.ok n, Except.ok k => Except.ok { Name := n, Key := k }
      | Except.error e, _ => Except.error e
      | _, Except.error e => Except.error e
  | Json.null => Except.ok { Name := "", Key := "" }
  | _ => Except.error "cannot unmarshal into a secret key selector"

/-- The operation field is a string in Go; anything other than
prepend/append denotes overwrite. -/
def decodeOperation : Json → Except String v1alpha1.TriggerOperation
  | Json.str s =>
      if s = "prepend" then Except.ok v1alpha1.TriggerOperation.prepend
      else if s = "append" then Except.ok v1alpha1.TriggerOperation.append
      else Except.ok v1alpha1.TriggerOperation.overwrite
  | _ => Except.error "cannot unmarshal into an operation field"

def decodeParameterSource : Json → Except String v1alpha1.TriggerParameterSource
  | Json.obj fields =>
      match decodeString (fieldOr fields "dependencyName" (Json.str "")),
            decodeStringList (fieldOr fields "dataKey" (Json.arr [])) with
      | Except.ok dep, Except.ok dk =>
          Except.ok { DependencyName := dep, DataKey := dk,
                      Value := match lookupField fields "value" with
                               | some Json.null => none
                               | some v => some v
                               | none => none }
      | Except.error e, _ => Except.error e
      | _, Except.error e => Except.error e
  | _ => Except.error "cannot unmarshal into a parameter source"

def decodeParameter : Json → Except String v1alpha1.TriggerParameter
  | Json.obj fields =>
      match decodeParameterSource (fieldOr fields "src" (Json.obj [])),
            decodeStringList (fieldOr fields "dest" (Json.arr [])),
            decodeOperation (fieldOr fields "operation" (Json.str "")) with
      | Except.ok s, Except.ok d, Except.ok op =>
          Except.ok { Src := s, Dest := d, Operation := op }
      | Except.error e, _, _ => Except.error e
      | _, Except.error e, _ => Except.error e
      | _, _, Except.error e => Except.error e
  | _ => Except.error "cannot unmarshal into a trigger parameter"

def decodeParameterList : List Json → Except String (List v1alpha1.TriggerParameter)
  | [] => Except.ok []
  | j :: rest =>
      match decodeParameter j, decodeParameterList rest with
      | Except.ok p, Except.ok ps => Except.ok (p :: ps)
      | Except.error e, _ => Except.error e
      | _, Except.error e => Except.error e

def decodeOptParameters : Json → Except String (Option (List v1alpha1.TriggerParameter))
  | Json.null => Except.ok none
  | Json.arr elems =>
      match decodeParameterList elems with
      | Except.ok ps => Except.ok (some ps)
      | Except.error e => Except.error e
  | _ => Except.error "cannot unmarshal into a parameter list"

def decodeGCPCloudFunctionTrigger : Json → Except String v1alpha1.GCPCloudFunctionTrigger
  | Json.obj fields =>
      match decodeString (fieldOr fields "functionName" (Json.str "")),
            decodeSecretKeySelector (fieldOr fields "credentialsPath" Json.null),
            decodeOptParameters (fieldOr fields "parameters" Json.null),
            decodeOptParameters (fieldOr fields "payload" Json.null) with
      | Except.ok fn, Except.ok cp, Except.ok ps, Except.ok pl =>
          Except.ok { FunctionName := fn, CredentialsPath := cp,
                      Parameters := ps, Payload := pl }
      | Except.error e, _, _, _ => Except.error e
      | _, Except.error e, _, _ => Except.error e
      | _, _, Except.error e, _ => Except.error e
      | _, _, _, Except.error e => Except.error e
  | _ => Except.error "cannot unmarshal into a GCP cloud function trigger"

/-- A value of Go interface type `interface\x7b\x7d` handed to the
pipeline stages: either a `*v1alpha1.GCPCloudFunctionTrigger` or a value
of any other dynamic type. -/
inductive Resource where
  | gcp (t : v1alpha1.GCPCloudFunctionTrigger) : Resource
  | other (v : Json) : Resource

/-- Go json.Marshal of a pipeline resource (total on the modelled values). -/
def marshalResource : Resource → Json
  | Resource.gcp t => encodeGCPCloudFunctionTrigger t
  | Resource.other v => v

/-! ## Controller configuration (controllers/config.go) -/

namespace controllers

structure NatsStreamingVersion where
  Version : String
  NatsStreamingImage : String
  MetricsExporterImage : String
deriving DecidableEq, Repr

structure NatsStreamingConfig where
  Versions : List NatsStreamingVersion
deriving DecidableEq, Repr

structure JetStreamVersion where
  Version : String
  NatsImage : String
  ConfigReloaderImage : String
  MetricsExporterImage : String
  StartCommand : String
deriving DecidableEq, Repr

structure JetStreamConfig where
  Settings : String
  Versions : List JetStreamVersion
deriving DecidableEq, Repr

/-- Nilable pointers of the Go struct are `Option`s. -/
structure EventBusConfig where
  NATS : Option NatsStreamingConfig
  JetStream : Option JetStreamConfig
deriving DecidableEq, Repr

structure GlobalConfig where
  EventBus : Option EventBusConfig
deriving DecidableEq, Repr

/-- The three `fmt.Errorf` messages of `GetNatsStreamingVersion`, kept
structured: `unsupportedNats` carries the requested version and the
supported-version strings that the source joins into the message (in
declared order). -/
inductive ConfigError where
  | natsNotFound : ConfigError
  | natsVersionConfigNotFound : ConfigError
  | unsupportedNats (version : String) (supported : List String) : ConfigError
deriving DecidableEq, Repr

def supportedNatsStreamingVersions (g : GlobalConfig) : List String :=
  match g.EventBus with
  | none => []
  | some eb =>
      match eb.NATS with
      | none => []
      | some nats => nats.Versions.map NatsStreamingVersion.Version

/-- The for-loop of `GetNatsStreamingVersion`: return the first entry
whose `Version` equals the argument. -/
def findNatsVersion (version : String) : List NatsStreamingVersion → Option NatsStreamingVersion
  | [] => none
  | r :: rest => if r.Version = version then some r else findNatsVersion version rest

def GetNatsStreamingVersion (g : GlobalConfig) (version : String) :
    Except ConfigError NatsStreamingVersion :=
  match g.EventBus with
  | none => Except.error ConfigError.natsNotFound
  | some eb =>
      match eb.NATS with
      | none => Except.error ConfigError.natsNotFound
      | some nats =>
          if nats.Versions.length = 0 then
            Except.error ConfigError.natsVersionConfigNotFound
          else
            match findNatsVersion version nats.Versions with
            | some r => Except.ok r
            | none =>
                Except.error (ConfigError.unsupportedNats version
                  (supportedNatsStreamingVersions g))

end controllers

/-! ## GCP cloud-function trigger (gcp-cloud-function.go)

External collaborators — the mounted-secret resolver
(`common.GetSecretFromVolume`, repo code outside the embedded files),
`os.Stat`, client construction (`cloudfunctions.NewService`) and the
remote function call — are modelled by an oracle record `GCPEnv`, so the
embedded functions are parametric in the outside world's behaviour while
their own control and data flow is exactly that of the source. -/

namespace cloudfunctions

/-- Identity of an authenticated `*cloudfunctions.Service` client. -/
abbrev Service := Nat

structure CallFunctionRequest where
  Data : String
deriving DecidableEq, Repr

end cloudfunctions

/-- Result of `os.Stat` on the credentials path; the source distinguishes
only `os.ErrNotExist` from everything else. -/
inductive StatResult where
  | ok : StatResult
  | errNotExist : StatResult
  | errOther : StatResult
deriving DecidableEq, Repr

/-- A Go context, observed only through whether it has been cancelled or
its deadline has expired. -/
structure GoContext where
  cancelled : Bool
deriving DecidableEq, Repr

/-- Go context.Background() is never cancelled and has no deadline. -/
def GoContext.background : GoContext := { cancelled := false }

/-- Oracle for external effects reached from the trigger code. -/
structure GCPEnv where
  getSecretFromVolume : v1alpha1.SecretKeySelector → Except String String
  stat : String → StatResult
  newService : String → Except String cloudfunctions.Service
  callFunction : Option cloudfunctions.Service → String →
    cloudfunctions.CallFunctionRequest → GoContext → Except String String

/-- Generic string-keyed map lookup (a Go map read). -/
def mapLookup {α : Type} : List (String × α) → String → Option α
  | [], _ => none
  | (k, v) :: rest, key => if k = key then some v else mapLookup rest key

/-- Go map insertion: replace the binding if present, else add it. -/
def mapInsert {α : Type} : List (String × α) → String → α → List (String × α)
  | [], key, v => [(key, v)]
  | (k, w) :: rest, key, v =>
      if k = key then (k, v) :: rest else (k, w) :: mapInsert rest key v

/-- The trigger struct of the source file; the logger field is omitted
(pure logging, read by no embedded code path). -/
structure GCPCloudFunctionTrigger where
  Sensor : v1alpha1.Sensor
  Trigger : v1alpha1.Trigger
  Service : Option cloudfunctions.Service

/-- NewGCPCloudFunctionTrigger. The updated client cache is returned
alongside the result, modelling the in-place mutation of the Go map
(which is touched only at the successful insert). In the source, line 48
(`gcpClient, err := cloudfunctions.NewService(...)`) declares a fresh
`gcpClient` inside the `if !ok` block, shadowing the `gcpClient` declared
at line 35; the struct literal at line 56 therefore reads the outer
variable — which on the miss path still holds the zero value nil — while
the cache insert at line 52 stores the inner, newly created client. -/
def NewGCPCloudFunctionTrigger (env : GCPEnv)
    (gcpClients : List (String × cloudfunctions.Service))
    (sensor : v1alpha1.Sensor) (trigger : v1alpha1.Trigger) :
    List (String × cloudfunctions.Service) × Except String GCPCloudFunctionTrigger :=
  let gcptrigger := trigger.Template.GCPCloudFunction
  match mapLookup gcpClients trigger.Template.Name with
  | some gcpClient =>
      (gcpClients,
       Except.ok { Service := some gcpClient, Sensor := sensor, Trigger := trigger })
  | none =>
      match env.getSecretFromVolume gcptrigger.CredentialsPath with
      | Except.error err =>
          (gcpClients, Except.error ("can not find service account path key: " ++ err))
      | Except.ok credentialsPath =>
          match env.stat credentialsPath with
          | StatResult.errNotExist =>
              (gcpClients,
               Except.error
                 "can not find service account file from CredentialsPath: file does not exist")
          | _ =>
              match env.newService credentialsPath with
              | Except.error err =>
                  (gcpClients, Except.error ("failed to create a GCP service: " ++ err))
              | Except.ok gcpClientInner =>
                  (mapInsert gcpClients trigger.Template.Name gcpClientInner,
                   Except.ok { Service := none, Sensor := sensor, Trigger := trigger })

/-- FetchResource: returns the static GCP cloud-function template. -/
def GCPCloudFunctionTrigger.FetchResource (t : GCPCloudFunctionTrigger) :
    Except String Resource :=
  Except.ok (Resource.gcp t.Trigger.Template.GCPCloudFunction)

/-- ApplyResourceParameters: marshal the resource, apply the declared
bindings when `Parameters` is non-nil, unmarshal the updated bytes;
otherwise return the resource unchanged. -/
def GCPCloudFunctionTrigger.ApplyResourceParameters (t : GCPCloudFunctionTrigger)
    (events : EventMap) (resource : Resource) : Except String Resource :=
  let resourceBytes := marshalResource resource
  match t.Trigger.Template.GCPCloudFunction.Parameters with
  | some parameters =>
      match triggers.ApplyParams resourceBytes parameters events with
      | Except.error err => Except.error err
      | Except.ok updatedResourceBytes =>
          match decodeGCPCloudFunctionTrigger updatedResourceBytes with
          | Except.error err =>
              Except.error
                ("failed to unmarshal the updated GCP cloud function trigger resource after applying resource parameters: "
                  ++ err)
          | Except.ok ht => Except.ok (Resource.gcp ht)
  | none => Except.ok resource

/-- Execute: type-assert the resource, require a payload specification,
construct the payload, and invoke the remote function. The source builds
`Call(trigger.FunctionName, &request)` and invokes `.Do()` without
`.Context(ctx)`, so the remote call runs under `context.Background()`;
the caller-supplied `ctx` parameter is never read. -/
def GCPCloudFunctionTrigger.Execute (t : GCPCloudFunctionTrigger) (env : GCPEnv)
    (ctx : GoContext) (events : EventMap) (resource : Resource) :
    Except String String :=
  match resource with
  | Resource.gcp trigger =>
      match trigger.Payload with
      | none => Except.error "payload parameters are not specified"
      | some payloadSpec =>
          match triggers.ConstructPayload events payloadSpec with
          | Except.error err => Except.error err
          | Except.ok payload =>
              env.callFunction t.Service trigger.FunctionName
                { Data := payload } GoContext.background
  | Resource.other _ => Except.error "failed to interpret the trigger resource"

/-- ApplyPolicy: the trigger declares no policy handling and returns
nil unconditionally. -/
def GCPCloudFunctionTrigger.ApplyPolicy (t : GCPCloudFunctionTrigger)
    (ctx : GoContext) (resource : Resource) : Option String :=
  none

/-! ## Concrete fixtures used to instantiate the theorems -/

/-- A GCP trigger template with neither bindings nor a payload spec. -/
def specNoPayload : v1alpha1.GCPCloudFunctionTrigger :=
  { FunctionName := "fn"
    CredentialsPath := { Name := "gcp-secret", Key := "creds" }
    Parameters := none
    Payload := none }

/-- A GCP trigger template with an empty (non-nil) payload spec. -/
def specEmptyPayload : v1alpha1.GCPCloudFunctionTrigger :=
  { FunctionName := "fn"
    CredentialsPath := { Name := "gcp-secret", Key := "creds" }
    Parameters := none
    Payload := some [] }

def triggerEx : v1alpha1.Trigger :=
  { Template := { Name := "t", GCPCloudFunction := specNoPayload } }

def sensorEx : v1alpha1.Sensor := { Name := "sensor" }

/-- An environment where credential loading, the file check and client
construction all succeed (the created client is handle 42) and the call
layer fails exactly when the context it receives is cancelled. -/
def envEx : GCPEnv :=
  { getSecretFromVolume := fun _ => Except.ok "/var/secrets/creds.json"
    stat := fun _ => StatResult.ok
    newService := fun _ => Except.ok 42
    callFunction := fun _ _ _ c =>
      if c.cancelled then Except.error "context canceled" else Except.ok "ok-response" }

/-- An environment where the credential secret path cannot be resolved. -/
def envFailCreds : GCPEnv :=
  { getSecretFromVolume := fun _ => Except.error "secret not found"
    stat := fun _ => StatResult.ok
    newService := fun _ => Except.ok 42
    callFunction := fun _ _ _ _ => Except.ok "ok-response" }

/-- A trigger wrapper holding an already-initialized client. -/
def tEx : GCPCloudFunctionTrigger :=
  { Sensor := sensorEx, Trigger := triggerEx, Service := some 7 }

/-! ## Claims about the GCP cloud-function trigger -/

/-- C7: with no declared policy, ApplyPolicy classifies every execution
response as success — it returns no error for any response value, and in
particular never yields a retry outcome. -/
theorem ApplyPolicy_no_policy_success (t : GCPCloudFunctionTrigger)
    (ctx : GoContext) (resource : Resource) :
    t.ApplyPolicy ctx resource = none := rfl

/-- C8: for every resource whose dynamic type is not
*v1alpha1.GCPCloudFunctionTrigger, Execute returns the
invalid-resource-type error; the result is the same for every
environment, so no payload is constructed and no external call happens. -/
theorem Execute_invalid_resource_type (t : GCPCloudFunctionTrigger)
    (env : GCPEnv) (ctx : GoContext) (events : EventMap) (v : Json) :
    t.Execute env ctx events (Resource.other v) =
      Except.error "failed to interpret the trigger resource" := rfl

/-- C3: for every resolved GCP trigger resource whose Payload field is
nil, Execute returns the payload-not-specified error; the result is the
same for every environment, so no payload is constructed and no external
call happens. -/
theorem Execute_nil_payload_error (t : GCPCloudFunctionTrigger)
    (env : GCPEnv) (ctx : GoContext) (events : EventMap)
    (trigger : v1alpha1.GCPCloudFunctionTrigger)
    (h : trigger.Payload = none) :
    t.Execute env ctx events (Resource.gcp trigger) =
      Except.error "payload parameters are not specified" := by
  simp only [GCPCloudFunctionTrigger.Execute, h]

theorem Execute_nil_payload_error_witness :
    specNoPayload.Payload = none ∧
    tEx.Execute envEx { cancelled := false } [] (Resource.gcp specNoPayload) =
      Except.error "payload parameters are not specified" :=
  ⟨rfl, Execute_nil_payload_error tEx envEx { cancelled := false } [] specNoPayload rfl⟩

/-- C2 (refuted): Execute never reads the caller-supplied context — its
result is identical for any two contexts — and concretely, with a call
layer that fails exactly under a cancelled context, Execute invoked with
an already-cancelled context still performs the remote call under
context.Background() and returns its successful response instead of a
prompt cancellation error. -/
theorem Execute_ignores_cancellation :
    (∀ (t : GCPCloudFunctionTrigger) (env : GCPEnv) (ctx ctx' : GoContext)
       (events : EventMap) (r : Resource),
        t.Execute env ctx events r = t.Execute env ctx' events r) ∧
    tEx.Execute envEx { cancelled := true } [] (Resource.gcp specEmptyPayload) =
      Except.ok "ok-response" :=
  ⟨fun _ _ _ _ _ _ => rfl, rfl⟩

/-- C4: when the trigger definition declares no parameter bindings
(Parameters is nil), ApplyResourceParameters returns exactly the input
resource unchanged and no error. -/
theorem ApplyResourceParameters_nil_parameters (t : GCPCloudFunctionTrigger)
    (events : EventMap) (resource : Resource)
    (h : t.Trigger.Template.GCPCloudFunction.Parameters = none) :
    t.ApplyResourceParameters events resource = Except.ok resource := by
  simp only [GCPCloudFunctionTrigger.ApplyResourceParameters, h]

theorem ApplyResourceParameters_nil_parameters_witness :
    tEx.Trigger.Template.GCPCloudFunction.Parameters = none ∧
    tEx.ApplyResourceParameters [] (Resource.other (Json.str "unchanged")) =
      Except.ok (Resource.other (Json.str "unchanged")) :=
  ⟨rfl, ApplyResourceParameters_nil_parameters tEx [] (Resource.other (Json.str "unchanged")) rfl⟩

/-- C9: parameter application is deterministic — two calls of
ApplyResourceParameters on identical trigger, event set and resource
produce the identical result (the embedding is a pure function of its
inputs, as the source computes only from them). -/
theorem ApplyResourceParameters_deterministic (t t' : GCPCloudFunctionTrigger)
    (events events' : EventMap) (resource resource' : Resource)
    (ht : t = t') (he : events = events') (hr : resource = resource') :
    t.ApplyResourceParameters events resource =
      t'.ApplyResourceParameters events' resource' := by
  subst ht; subst he; subst hr; rfl

theorem ApplyResourceParameters_deterministic_witness :
    tEx.ApplyResourceParameters [] (Resource.gcp specNoPayload) =
      tEx.ApplyResourceParameters [] (Resource.gcp specNoPayload) :=
  ApplyResourceParameters_deterministic tEx tEx [] [] _ _ rfl rfl rfl

/-- C5: on a cache hit, NewGCPCloudFunctionTrigger returns the unchanged
cache and a trigger whose Service field is the cached client; the result
is the same for every environment, so no credential loading and no client
construction takes place. -/
theorem NewGCPCloudFunctionTrigger_cache_hit (env : GCPEnv)
    (gcpClients : List (String × cloudfunctions.Service))
    (sensor : v1alpha1.Sensor) (trigger : v1alpha1.Trigger)
    (client : cloudfunctions.Service)
    (h : mapLookup gcpClients trigger.Template.Name = some client) :
    NewGCPCloudFunctionTrigger env gcpClients sensor trigger =
      (gcpClients,
       Except.ok { Service := some client, Sensor := sensor, Trigger := trigger }) := by
  simp only [NewGCPCloudFunctionTrigger, h]

theorem NewGCPCloudFunctionTrigger_cache_hit_witness :
    mapLookup [("t", 9)] triggerEx.Template.Name = some 9 ∧
    NewGCPCloudFunctionTrigger envEx [("t", 9)] sensorEx triggerEx =
      ([("t", 9)],
       Except.ok { Service := some 9, Sensor := sensorEx, Trigger := triggerEx }) :=
  ⟨rfl, NewGCPCloudFunctionTrigger_cache_hit envEx [("t", 9)] sensorEx triggerEx 9 rfl⟩

/-- C6: on a cache miss, when the credential secret path cannot be
resolved or the credentials file does not exist, NewGCPCloudFunctionTrigger
returns the wrapped error with the cache unchanged, and its result does
not depend on the client constructor — no client is built and no entry is
added. -/
theorem NewGCPCloudFunctionTrigger_miss_credential_error (env : GCPEnv)
    (gcpClients : List (String × cloudfunctions.Service))
    (sensor : v1alpha1.Sensor) (trigger : v1alpha1.Trigger)
    (hmiss : mapLookup gcpClients trigger.Template.Name = none)
    (herr :
      (∃ e, env.getSecretFromVolume trigger.Template.GCPCloudFunction.CredentialsPath =
              Except.error e) ∨
      (∃ p, env.getSecretFromVolume trigger.Template.GCPCloudFunction.CredentialsPath =
              Except.ok p ∧ env.stat p = StatResult.errNotExist)) :
    (∃ msg, NewGCPCloudFunctionTrigger env gcpClients sensor trigger =
              (gcpClients, Except.error msg)) ∧
    (∀ f, NewGCPCloudFunctionTrigger { env with newService := f } gcpClients sensor trigger =
            NewGCPCloudFunctionTrigger env gcpClients sensor trigger) := by
  rcases herr with ⟨e, he⟩ | ⟨p, hp, hs⟩
  · refine ⟨⟨"can not find service account path key: " ++ e, ?_⟩, ?_⟩
    · simp only [NewGCPCloudFunctionTrigger, hmiss, he]
    · intro f
      simp only [NewGCPCloudFunctionTrigger, hmiss, he]
  · refine ⟨⟨"can not find service account file from CredentialsPath: file does not exist", ?_⟩, ?_⟩
    · simp only [NewGCPCloudFunctionTrigger, hmiss, hp, hs]
    · intro f
      simp only [NewGCPCloudFunctionTrigger, hmiss, hp, hs]

theorem NewGCPCloudFunctionTrigger_miss_credential_error_witness :
    mapLookup ([] : List (String × cloudfunctions.Service)) triggerEx.Template.Name = none ∧
    (∃ msg, NewGCPCloudFunctionTrigger envFailCreds [] sensorEx triggerEx =
              ([], Except.error msg)) :=
  ⟨rfl,
   (NewGCPCloudFunctionTrigger_miss_credential_error envFailCreds [] sensorEx triggerEx
      rfl (Or.inl ⟨"secret not found", rfl⟩)).1⟩

/-- C1 (code bug, line 48 variable shadowing): at a concrete cache miss
where credential loading and client construction succeed (the new client
is handle 42), the cache receives the new client under the trigger's
template name, but the returned trigger's Service field is nil rather
than the stored client. -/
theorem NewGCPCloudFunctionTrigger_miss_returns_nil_service :
    mapLookup (NewGCPCloudFunctionTrigger envEx [] sensorEx triggerEx).1 "t" = some 42 ∧
    (∃ tr, (NewGCPCloudFunctionTrigger envEx [] sensorEx triggerEx).2 = Except.ok tr ∧
           tr.Service = none) :=
  ⟨rfl, ⟨{ Service := none, Sensor := sensorEx, Trigger := triggerEx }, rfl, rfl⟩⟩

/-! ## Claims about the controller configuration lookup -/

namespace controllers

theorem findNatsVersion_none_iff (version : String) (l : List NatsStreamingVersion) :
    findNatsVersion version l = none ↔ ∀ e ∈ l, e.Version ≠ version := by
  induction l with
  | nil => simp [findNatsVersion]
  | cons r rest ih =>
      by_cases h : r.Version = version
      · simp [findNatsVersion, h]
      · simp [findNatsVersion, h, ih]

theorem findNatsVersion_some_first (version : String) (l : List NatsStreamingVersion)
    (r : NatsStreamingVersion) (h : findNatsVersion version l = some r) :
    ∃ pre post, l = pre ++ r :: post ∧ r.Version = version ∧
      ∀ e ∈ pre, e.Version ≠ version := by
  induction l with
  | nil => simp [findNatsVersion] at h
  | cons x rest ih =>
      by_cases hx : x.Version = version
      · refine ⟨[], rest, ?_, ?_, ?_⟩
        · simp only [findNatsVersion, if_pos hx] at h
          simp [Option.some.injEq] at h
          simp [h]
        · simp only [findNatsVersion, if_pos hx] at h
          simp [Option.some.injEq] at h
          subst h; exact hx
        · intro e he; simp at he
      · simp only [findNatsVersion, if_neg hx] at h
        obtain ⟨pre, post, hl, hv, hpre⟩ := ih h
        refine ⟨x :: pre, post, by simp [hl], hv, ?_⟩
        intro e he
        rcases List.mem_cons.mp he with rfl | he'
        · exact hx
        · exact hpre e he'

theorem findNatsVersion_some_of_mem (version : String) (l : List NatsStreamingVersion)
    (e : NatsStreamingVersion) (hmem : e ∈ l) (hv : e.Version = version) :
    ∃ r, findNatsVersion version l = some r := by
  induction l with
  | nil => simp at hmem
  | cons x rest ih =>
      by_cases hx : x.Version = version
      · exact ⟨x, by simp [findNatsVersion, hx]⟩
      · rcases List.mem_cons.mp hmem with rfl | hmem'
        · exact absurd hv hx
        · obtain ⟨r, hr⟩ := ih hmem'
          exact ⟨r, by simp [findNatsVersion, hx, hr]⟩

/-- C10: GetNatsStreamingVersion succeeds exactly when the configuration
has a non-nil eventBus.nats section whose Versions list contains an entry
with the requested Version; a successful result is the first such entry,
and a failure against a non-empty Versions list with no match carries
every configured version string in declared order. -/
theorem GetNatsStreamingVersion_spec (g : GlobalConfig) (version : String) :
    ((∃ r, GetNatsStreamingVersion g version = Except.ok r) ↔
      (∃ eb nats, g.EventBus = some eb ∧ eb.NATS = some nats ∧
        ∃ e ∈ nats.Versions, e.Version = version)) ∧
    (∀ r, GetNatsStreamingVersion g version = Except.ok r →
      ∃ eb nats pre post, g.EventBus = some eb ∧ eb.NATS = some nats ∧
        nats.Versions = pre ++ r :: post ∧ r.Version = version ∧
        ∀ e ∈ pre, e.Version ≠ version) ∧
    (∀ eb nats, g.EventBus = some eb → eb.NATS = some nats →
      nats.Versions ≠ [] → (∀ e ∈ nats.Versions, e.Version ≠ version) →
      GetNatsStreamingVersion g version =
        Except.error (ConfigError.unsupportedNats version
          (nats.Versions.map NatsStreamingVersion.Version))) := by
  obtain ⟨eventBus⟩ := g
  match eventBus with
  | none =>
      refine ⟨?_, ?_, ?_⟩
      · constructor
        · rintro ⟨r, hr⟩; simp [GetNatsStreamingVersion] at hr
        · rintro ⟨eb, nats, heb, _⟩; simp at heb
      · intro r hr; simp [GetNatsStreamingVersion] at hr
      · intro eb nats heb; simp at heb
  | some eb =>
      match hnats : eb.NATS with
      | none =>
          refine ⟨?_, ?_, ?_⟩
          · constructor
            · rintro ⟨r, hr⟩; simp [GetNatsStreamingVersion, hnats] at hr
            · rintro ⟨eb', nats, heb, hn, _⟩
              simp at heb; subst heb
              rw [hnats] at hn; exact Option.noConfusion hn
          · intro r hr; simp [GetNatsStreamingVersion, hnats] at hr
          · intro eb' nats heb hn
            simp at heb; subst heb
            rw [hnats] at hn; exact absurd hn (by simp)
      | some nats =>
          refine ⟨?_, ?_, ?_⟩
          · constructor
            · rintro ⟨r, hr⟩
              refine ⟨eb, nats, rfl, hnats, ?_⟩
              simp only [GetNatsStreamingVersion, hnats] at hr
              by_cases hlen : nats.Versions.length = 0
              · rw [if_pos hlen] at hr; exact Except.noConfusion hr
              · rw [if_neg hlen] at hr
                match hfind : findNatsVersion version nats.Versions with
                | some r' =>
                    obtain ⟨pre, post, hl, hv, _⟩ :=
                      findNatsVersion_some_first version nats.Versions r' hfind
                    exact ⟨r', by rw [hl]; simp, hv⟩
                | none => rw [hfind] at hr; exact Except.noConfusion hr
            · rintro ⟨eb', nats', heb, hn, e, hmem, hv⟩
              simp at heb; subst heb
              rw [hnats] at hn
              have hn' : nats = nats' := by injection hn
              subst hn'
              obtain ⟨r, hr⟩ := findNatsVersion_some_of_mem version nats.Versions e hmem hv
              refine ⟨r, ?_⟩
              have hlen : ¬ nats.Versions.length = 0 := by
                intro h0
                rw [List.length_eq_zero] at h0
                rw [h0] at hmem; simp at hmem
              simp only [GetNatsStreamingVersion, hnats, if_neg hlen, hr]
          · intro r hr
            simp only [GetNatsStreamingVersion, hnats] at hr
            by_cases hlen : nats.Versions.length = 0
            · rw [if_pos hlen] at hr; exact Except.noConfusion hr
            · rw [if_neg hlen] at hr
              match hfind : findNatsVersion version nats.Versions with
              | some r' =>
                  rw [hfind] at hr
                  have hrr : r' = r := by injection hr
                  subst hrr
                  obtain ⟨pre, post, hl, hv, hpre⟩ :=
                    findNatsVersion_some_first version nats.Versions r' hfind
                  exact ⟨eb, nats, pre, post, rfl, hnats, hl, hv, hpre⟩
              | none => rw [hfind] at hr; exact Except.noConfusion hr
          · intro eb' nats' heb hn hne hall
            simp at heb; subst heb
            rw [hnats] at hn
            have hn' : nats = nats' := by injection hn
            subst hn'
            have hlen : ¬ nats.Versions.length = 0 := by
              intro h0; exact hne (List.length_eq_zero.mp h0)
            have hfind : findNatsVersion version nats.Versions = none :=
              (findNatsVersion_none_iff version nats.Versions).mpr hall
            simp only [GetNatsStreamingVersion, hnats, if_neg hlen, hfind,
              supportedNatsStreamingVersions]

end controllers

/-- A concrete configuration with one supported NATS streaming version. -/
def cfgEx : controllers.GlobalConfig :=
  { EventBus := some
      { NATS := some
          { Versions := [{ Version := "0.22.1", NatsStreamingImage := "nats-streaming:0.22.1",
                           MetricsExporterImage := "prometheus-nats-exporter:0.8.0" }] }
        JetStream := none } }

theorem GetNatsStreamingVersion_spec_witness :
    controllers.GetNatsStreamingVersion cfgEx "9.9.9" =
      Except.error (controllers.ConfigError.unsupportedNats "9.9.9" ["0.22.1"]) :=
  (controllers.GetNatsStreamingVersion_spec cfgEx "9.9.9").2.2 _ _ rfl rfl
    (by simp) (by decide)
